import Mathlib

/-!
Shallow embedding of the Eloquence auth backend
(src/eloquence-auth-backend/app): the OTP and session records stored in
Azure Table Storage, the StorageService and OTPService operations, the
send-otp and verify-otp router handlers, and the LLM session/whitelist
validation.  Timestamps are modelled as natural numbers of seconds since
the epoch; comparison of ISO-8601 UTC strings (as done by the Python code
on createdAt) agrees with numeric comparison of the instants they encode.
Randomly generated values (codes, row keys, tokens, user ids) and the
email-delivery result are passed in as parameters.
-/

namespace Eloquence

/-- app/config.py Settings: the configuration fields the auth core reads,
with their defaults. -/
structure Config where
  otp_length : Nat := 6
  otp_expiry_minutes : Nat := 10
  otp_max_attempts : Nat := 3
  otp_rate_limit_minutes : Nat := 1
  session_expiry_days : Nat := 30
  llm_allowed_emails : String := ""
deriving Repr, DecidableEq

/-- An entity of the otpcodes table (storage_service.save_otp). -/
structure OTPRecord where
  partitionKey : String
  rowKey : String
  code : String
  createdAt : Nat
  expiresAt : Nat
  attempts : Nat
  isUsed : Bool
  usedAt : Option Nat
deriving Repr, DecidableEq

/-- An entity of the usersessions table (storage_service.create_session). -/
structure SessionRecord where
  partitionKey : String
  rowKey : String
  userId : String
  createdAt : Nat
  expiresAt : Nat
  lastAccessedAt : Nat
deriving Repr, DecidableEq

/-- The two tables of the external store. -/
structure Store where
  otpcodes : List OTPRecord
  usersessions : List SessionRecord
deriving Repr, DecidableEq

/-! ## Python string primitives

The Python code uses str.lower, str.strip and str.split.  They are embedded
here as structurally recursive functions on the character list of the
string (for the ASCII identities and separators this code handles these
agree with the Python semantics); the Lean library versions of these
operations are defined by well-founded recursion on byte positions, which
the kernel cannot evaluate, so they are not used. -/

/-- str.lower: lower-case every character. -/
def pyLower (s : String) : String :=
  String.mk (s.data.map Char.toLower)

/-- str.strip with no argument: remove leading and trailing whitespace. -/
def pyStrip (s : String) : String :=
  String.mk (((s.data.dropWhile Char.isWhitespace).reverse.dropWhile Char.isWhitespace).reverse)

/-- The groups of characters of cs delimited by the separator, as for the
Python str.split with an explicit separator: split("," ) of an empty string
is one empty group. -/
def pySplitAux (sep : Char) : List Char → List (List Char)
  | [] => [[]]
  | c :: rest =>
    if c == sep then [] :: pySplitAux sep rest
    else
      match pySplitAux sep rest with
      | [] => [[c]]
      | g :: gs => (c :: g) :: gs

/-- str.split(sep) for a one-character separator. -/
def pySplit (sep : Char) (s : String) : List String :=
  (pySplitAux sep s.data).map String.mk

/-! ## app/config.py -/

/-- Settings.llm_allowed_emails_list: parse the comma-separated whitelist,
keeping the entries whose strip() is non-empty, each stripped and
lower-cased; an empty configuration string yields the empty list. -/
def llm_allowed_emails_list (cfg : Config) : List String :=
  if cfg.llm_allowed_emails == "" then []
  else
    ((pySplit (Char.ofNat 44) cfg.llm_allowed_emails).filter (fun e => !(pyStrip e == ""))).map
      (fun e => pyLower (pyStrip e))

/-- Settings.is_email_allowed_for_llm: empty parsed whitelist allows every
email, otherwise membership of email.lower() in the parsed list. -/
def is_email_allowed_for_llm (cfg : Config) (email : String) : Bool :=
  let allowed := llm_allowed_emails_list cfg
  if allowed.isEmpty then true
  else allowed.contains (pyLower email)

/-! ## app/services/otp_service.py -/

/-- OTPService.is_expired: utcnow() is strictly past the expiry instant. -/
def is_expired (now expiry_time : Nat) : Bool :=
  expiry_time < now

/-- OTPService.is_rate_limited: the time since the last request is strictly
below otp_rate_limit_minutes * 60 seconds (a missing last request is never
rate limited).  The subtraction is over the integers, as for Python
timedelta.total_seconds(). -/
def is_rate_limited (cfg : Config) (now : Nat) (last_request_time : Option Nat) : Bool :=
  match last_request_time with
  | none => false
  | some t => decide ((now : Int) - (t : Int) < (cfg.otp_rate_limit_minutes : Int) * 60)

/-- OTPService.calculate_expiry: now + otp_expiry_minutes. -/
def calculate_expiry (cfg : Config) (now : Nat) : Nat :=
  now + cfg.otp_expiry_minutes * 60

/-- OTPService.calculate_session_expiry: now + session_expiry_days. -/
def calculate_session_expiry (cfg : Config) (now : Nat) : Nat :=
  now + cfg.session_expiry_days * 86400

/-! ## app/services/storage_service.py -/

/-- The query filter of StorageService.get_latest_otp:
PartitionKey eq email.lower() and isUsed eq false. -/
def otpQueryFilter (email : String) (r : OTPRecord) : Bool :=
  r.partitionKey == pyLower email && r.isUsed == false

/-- The head of the list of entities after the stable descending sort by
createdAt in StorageService.get_latest_otp: the first entity, in query
order, whose createdAt is maximal. -/
def pickLatest (e : OTPRecord) (rest : List OTPRecord) : OTPRecord :=
  rest.foldl (fun best r => if best.createdAt < r.createdAt then r else best) e

/-- StorageService.get_latest_otp: query the unused entities of the email,
sort by createdAt descending, return the head (none when the query result
is empty). -/
def get_latest_otp (store : Store) (email : String) : Option OTPRecord :=
  match store.otpcodes.filter (otpQueryFilter email) with
  | [] => none
  | e :: rest => some (pickLatest e rest)

/-- StorageService.save_otp: insert a fresh entity with attempts = 0 and
isUsed = false; the row key (a fresh UUID in the code) is a parameter. -/
def save_otp (store : Store) (email code : String) (expires_at now : Nat)
    (row_key : String) : Store :=
  { store with otpcodes :=
      { partitionKey := pyLower email, rowKey := row_key, code := code,
        createdAt := now, expiresAt := expires_at, attempts := 0,
        isUsed := false, usedAt := none } :: store.otpcodes }

/-- StorageService.increment_otp_attempts: merge-update the entity keyed by
(email.lower(), row_key), adding 1 to its attempts. -/
def increment_otp_attempts (store : Store) (email row_key : String) : Store :=
  { store with otpcodes := store.otpcodes.map (fun r =>
      if r.partitionKey == pyLower email && r.rowKey == row_key then
        { r with attempts := r.attempts + 1 }
      else r) }

/-- StorageService.mark_otp_used: merge-update the entity keyed by
(email.lower(), row_key), setting isUsed = true and usedAt = now. -/
def mark_otp_used (store : Store) (email row_key : String) (now : Nat) : Store :=
  { store with otpcodes := store.otpcodes.map (fun r =>
      if r.partitionKey == pyLower email && r.rowKey == row_key then
        { r with isUsed := true, usedAt := some now }
      else r) }

/-- StorageService.delete_old_otps: delete every otpcodes entity whose
PartitionKey is email.lower(), used or not. -/
def delete_old_otps (store : Store) (email : String) : Store :=
  { store with otpcodes :=
      store.otpcodes.filter (fun r => !(r.partitionKey == pyLower email)) }

/-- StorageService.create_session: insert a session entity with
createdAt = lastAccessedAt = now; token and the fresh user id are
parameters.  Returns the entity and the updated store. -/
def create_session (store : Store) (email token : String) (expires_at now : Nat)
    (user_id : String) : SessionRecord × Store :=
  let entity : SessionRecord :=
    { partitionKey := pyLower email, rowKey := token, userId := user_id,
      createdAt := now, expiresAt := expires_at, lastAccessedAt := now }
  (entity, { store with usersessions := entity :: store.usersessions })

/-- StorageService.get_session: query across all partitions for
RowKey eq token and return the first hit. -/
def get_session (store : Store) (token : String) : Option SessionRecord :=
  store.usersessions.find? (fun s => s.rowKey == token)

/-! ## app/routers/auth.py -/

/-- Outcome of the send-otp handler: HTTP 429, HTTP 500, or the 200
response body expiresIn value. -/
inductive SendOutcome where
  | rateLimited
  | emailFailed
  | success (expiresIn : Nat)
deriving Repr, DecidableEq

/-- send_otp handler: rate-limit check on the latest unused OTP of the
email, then delete old OTPs, generate and save a fresh code, then attempt
email delivery (its result is the parameter email_sent); delivery failure
is reported after the store writes. -/
def send_otp (cfg : Config) (store : Store) (now : Nat) (email code row_key : String)
    (email_sent : Bool) : SendOutcome × Store :=
  let latest_otp := get_latest_otp store email
  let limited :=
    match latest_otp with
    | some latest => is_rate_limited cfg now (some latest.createdAt)
    | none => false
  if limited then (SendOutcome.rateLimited, store)
  else
    let store1 := delete_old_otps store email
    let expires_at := calculate_expiry cfg now
    let store2 := save_otp store1 email code expires_at now row_key
    if email_sent then (SendOutcome.success (cfg.otp_expiry_minutes * 60), store2)
    else (SendOutcome.emailFailed, store2)

/-- Outcome of the verify-otp handler: the four HTTP 400 rejections, or
success carrying the identity the created session is bound to (the
PartitionKey of the OTP record and of the session). -/
inductive VerifyOutcome where
  | notFound
  | expired
  | attemptsExhausted
  | invalidCode
  | success (identity : String)
deriving Repr, DecidableEq

/-- verify_otp handler: fetch the latest unused OTP record, then check in
order record presence, expiry, the attempts ceiling, and the code; a wrong
code increments the attempts counter, a correct one marks the record used
and creates a session (token and user id are parameters). -/
def verify_otp (cfg : Config) (store : Store) (now : Nat) (email code : String)
    (session_token user_id : String) : VerifyOutcome × Store :=
  match get_latest_otp store email with
  | none => (VerifyOutcome.notFound, store)
  | some otp_record =>
    if is_expired now otp_record.expiresAt then (VerifyOutcome.expired, store)
    else if cfg.otp_max_attempts ≤ otp_record.attempts then
      (VerifyOutcome.attemptsExhausted, store)
    else if !(otp_record.code == code) then
      (VerifyOutcome.invalidCode, increment_otp_attempts store email otp_record.rowKey)
    else
      let store1 := mark_otp_used store email otp_record.rowKey now
      let session_expires := calculate_session_expiry cfg now
      let (_, store2) := create_session store1 email session_token session_expires now user_id
      (VerifyOutcome.success otp_record.partitionKey, store2)

/-! ## app/routers/llm.py -/

/-- Session-validation part of validate_session_and_whitelist (the lookup
and the expiry check, before the whitelist): absent token, expired
session, or the session record. -/
inductive SessionCheck where
  | notFound
  | expired
  | valid (s : SessionRecord)
deriving Repr, DecidableEq

/-- Lines 44-58 of app/routers/llm.py: get_session, then reject when
expiresAt < utcnow(). -/
def validate_session (store : Store) (now : Nat) (token : String) : SessionCheck :=
  match get_session store token with
  | none => SessionCheck.notFound
  | some session =>
    if session.expiresAt < now then SessionCheck.expired
    else SessionCheck.valid session

/-- Outcome of validate_session_and_whitelist: HTTP 401 for a missing or
expired session, HTTP 403 for a whitelisted-out email, or the session. -/
inductive AuthOutcome where
  | unauthorizedNotFound
  | unauthorizedExpired
  | forbidden
  | ok (s : SessionRecord)
deriving Repr, DecidableEq

/-- validate_session_and_whitelist (given the token already stripped of
the Bearer prefix): session lookup, expiry check, then the whitelist check
on the session PartitionKey.  The function only queries the store, so the
store is returned unchanged in every branch. -/
def validate_session_and_whitelist (cfg : Config) (store : Store) (now : Nat)
    (token : String) : AuthOutcome × Store :=
  match validate_session store now token with
  | SessionCheck.notFound => (AuthOutcome.unauthorizedNotFound, store)
  | SessionCheck.expired => (AuthOutcome.unauthorizedExpired, store)
  | SessionCheck.valid session =>
    if !(is_email_allowed_for_llm cfg session.partitionKey) then
      (AuthOutcome.forbidden, store)
    else (AuthOutcome.ok session, store)

/-- Folding a sequence of validate_session_and_whitelist calls (each a pair
of an instant and a presented token) through the store. -/
def run_validations (cfg : Config) (store : Store) (calls : List (Nat × String)) : Store :=
  calls.foldl (fun st c => (validate_session_and_whitelist cfg st c.1 c.2).2) store

/-! ## Derived definitions used by the verification -/

/-- The per-entity update performed by increment_otp_attempts. -/
def bumpAttempts (email row_key : String) (r : OTPRecord) : OTPRecord :=
  if r.partitionKey == pyLower email && r.rowKey == row_key then
    { r with attempts := r.attempts + 1 }
  else r

/-- The per-entity update performed by mark_otp_used. -/
def markUsed (email row_key : String) (now : Nat) (r : OTPRecord) : OTPRecord :=
  if r.partitionKey == pyLower email && r.rowKey == row_key then
    { r with isUsed := true, usedAt := some now }
  else r

/-- The projection of the otpcodes table that the attempts policy speaks
about: keys together with the attempts counter. -/
def attemptsView (store : Store) : List (String × String × Nat) :=
  store.otpcodes.map (fun r => (r.partitionKey, r.rowKey, r.attempts))

/-- The entity inserted by send_otp via save_otp. -/
def fresh_otp_record (cfg : Config) (now : Nat) (email code row_key : String) : OTPRecord :=
  { partitionKey := pyLower email, rowKey := row_key, code := code,
    createdAt := now, expiresAt := calculate_expiry cfg now, attempts := 0,
    isUsed := false, usedAt := none }

/-- One verify-otp call, keeping only the store it leaves behind. -/
def verify_step (cfg : Config) (now : Nat) (email code tk uid : String) (store : Store) : Store :=
  (verify_otp cfg store now email code tk uid).2

/-- n consecutive verify-otp calls with the same candidate code. -/
def iterate_verify (cfg : Config) (now : Nat) (email code tk uid : String) :
    Nat → Store → Store
  | 0, store => store
  | n + 1, store =>
      iterate_verify cfg now email code tk uid n (verify_step cfg now email code tk uid store)

/-- The pydantic validator of VerifyOTPRequest.code in app/models.py:
min_length 6, max_length 6 and the pattern of exactly six ASCII digits. -/
def accepted_verify_code (code : String) : Bool :=
  code.length == 6 && code.data.all (fun c => decide ('0' ≤ c) && decide (c ≤ '9'))

/-- The set of strings OTPService.generate_otp can return: a join of
otp_length characters drawn from string.digits. -/
def is_generated_code (cfg : Config) (s : String) : Prop :=
  s.length = cfg.otp_length ∧ ∀ c ∈ s.data, '0' ≤ c ∧ c ≤ '9'

/-! ## Concrete instances used to exercise the theorems -/

/-- The default configuration (all Settings defaults). -/
def cfgD : Config := {}

/-- A configuration with a five-digit otp_length. -/
def cfgLen5 : Config := { otp_length := 5 }

/-- A sample live OTP record. -/
def recEx : OTPRecord :=
  { partitionKey := "a@x", rowKey := "rk1", code := "482913", createdAt := 10,
    expiresAt := 700, attempts := 0, isUsed := false, usedAt := none }

/-- A store holding only the sample OTP record. -/
def storeEx : Store := { otpcodes := [recEx], usersessions := [] }

/-- An empty store. -/
def storeEmpty : Store := { otpcodes := [], usersessions := [] }

/-- A sample session record expiring at instant 50. -/
def sessEx : SessionRecord :=
  { partitionKey := "a@x", rowKey := "tok", userId := "u", createdAt := 0,
    expiresAt := 50, lastAccessedAt := 0 }

/-- A store holding only the sample session record. -/
def storeSess : Store := { otpcodes := [], usersessions := [sessEx] }

/-- A configuration with a two-entry whitelist. -/
def cfgWL : Config := { llm_allowed_emails := "Alice@X.com, bob@y.com" }

/-- A live OTP record whose code was generated under otp_length 5. -/
def recLen5 : OTPRecord :=
  { partitionKey := "a@x", rowKey := "rk", code := "12345", createdAt := 0,
    expiresAt := 700, attempts := 0, isUsed := false, usedAt := none }

/-- A store holding only the five-digit-code OTP record. -/
def storeLen5 : Store := { otpcodes := [recLen5], usersessions := [] }

end Eloquence

namespace Eloquence

/-! ## Helper lemmas about the query filter and the time predicates -/

lemma otpQueryFilter_iff (email : String) (r : OTPRecord) :
    otpQueryFilter email r = true ↔ r.partitionKey = pyLower email ∧ r.isUsed = false := by
  simp [otpQueryFilter]

lemma is_expired_iff (now e : Nat) : is_expired now e = true ↔ e < now := by
  simp [is_expired]

lemma is_rate_limited_some_iff (cfg : Config) (now t : Nat) :
    is_rate_limited cfg now (some t) = true ↔
      (now : Int) - (t : Int) < (cfg.otp_rate_limit_minutes : Int) * 60 := by
  simp [is_rate_limited]

/-! ## Helper lemmas about pickLatest and get_latest_otp -/

lemma pickLatest_cons (e r : OTPRecord) (l : List OTPRecord) :
    pickLatest e (r :: l) = pickLatest (if e.createdAt < r.createdAt then r else e) l := rfl

lemma pickLatest_mem (e : OTPRecord) (l : List OTPRecord) :
    pickLatest e l ∈ e :: l := by
  induction l generalizing e with
  | nil => exact List.mem_singleton.mpr rfl
  | cons r t ih =>
    rw [pickLatest_cons]
    have h := ih (if e.createdAt < r.createdAt then r else e)
    rcases List.mem_cons.mp h with h1 | h1
    · rw [h1]
      by_cases hc : e.createdAt < r.createdAt
      · rw [if_pos hc]
        exact List.mem_cons.mpr (Or.inr (List.mem_cons_self _ _))
      · rw [if_neg hc]
        exact List.mem_cons_self _ _
    · exact List.mem_cons.mpr (Or.inr (List.mem_cons.mpr (Or.inr h1)))

lemma pickLatest_le (e : OTPRecord) (l : List OTPRecord) :
    ∀ x ∈ e :: l, x.createdAt ≤ (pickLatest e l).createdAt := by
  induction l generalizing e with
  | nil =>
    intro x hx
    rw [List.mem_singleton] at hx
    subst hx
    exact le_refl _
  | cons r t ih =>
    intro x hx
    rw [pickLatest_cons]
    have hq1 : e.createdAt ≤ (if e.createdAt < r.createdAt then r else e).createdAt := by
      by_cases hc : e.createdAt < r.createdAt
      · rw [if_pos hc]; exact le_of_lt hc
      · rw [if_neg hc]
    have hq2 : r.createdAt ≤ (if e.createdAt < r.createdAt then r else e).createdAt := by
      by_cases hc : e.createdAt < r.createdAt
      · rw [if_pos hc]
      · rw [if_neg hc]; exact le_of_not_lt hc
    rcases List.mem_cons.mp hx with h1 | h1
    · subst h1
      exact le_trans hq1 (ih _ _ (List.mem_cons_self _ _))
    · rcases List.mem_cons.mp h1 with h2 | h2
      · subst h2
        exact le_trans hq2 (ih _ _ (List.mem_cons_self _ _))
      · exact ih _ x (List.mem_cons.mpr (Or.inr h2))

lemma pickLatest_map (f : OTPRecord → OTPRecord) (hc : ∀ x, (f x).createdAt = x.createdAt)
    (e : OTPRecord) (l : List OTPRecord) :
    pickLatest (f e) (l.map f) = f (pickLatest e l) := by
  induction l generalizing e with
  | nil => rfl
  | cons r t ih =>
    rw [List.map_cons, pickLatest_cons, pickLatest_cons]
    have hif : (if (f e).createdAt < (f r).createdAt then f r else f e)
        = f (if e.createdAt < r.createdAt then r else e) := by
      rw [hc, hc]
      by_cases hcc : e.createdAt < r.createdAt
      · rw [if_pos hcc, if_pos hcc]
      · rw [if_neg hcc, if_neg hcc]
    rw [hif, ih]

lemma filter_map_comm (f : OTPRecord → OTPRecord) (p : OTPRecord → Bool)
    (hp : ∀ x, p (f x) = p x) (l : List OTPRecord) :
    (l.map f).filter p = (l.filter p).map f := by
  induction l with
  | nil => rfl
  | cons r t ih =>
    rw [List.map_cons, List.filter_cons, List.filter_cons, hp]
    by_cases h : p r = true
    · rw [if_pos h, if_pos h, List.map_cons, ih]
    · rw [if_neg h, if_neg h, ih]

lemma get_latest_otp_eq_none_iff (store : Store) (email : String) :
    get_latest_otp store email = none ↔
      store.otpcodes.filter (otpQueryFilter email) = [] := by
  unfold get_latest_otp
  cases hf : store.otpcodes.filter (otpQueryFilter email) with
  | nil => simp
  | cons e rest => simp

lemma otp_filter_eq_nil_iff (store : Store) (email : String) :
    store.otpcodes.filter (otpQueryFilter email) = [] ↔
      ∀ x ∈ store.otpcodes, x.partitionKey = pyLower email → x.isUsed = true := by
  rw [List.filter_eq_nil_iff]
  constructor
  · intro h x hx hpk
    have hu : x.isUsed = false → False := by
      intro hu
      exact h x hx (by rw [otpQueryFilter_iff]; exact ⟨hpk, hu⟩)
    cases hb : x.isUsed
    · exact absurd (hu hb) (by simp)
    · rfl
  · intro h x hx hpx
    obtain ⟨hpk, hu⟩ := (otpQueryFilter_iff _ _).mp hpx
    have ht := h x hx hpk
    rw [ht] at hu
    simp at hu

lemma get_latest_otp_eq_some_mem {store : Store} {email : String} {r : OTPRecord}
    (h : get_latest_otp store email = some r) :
    r ∈ store.otpcodes ∧ r.partitionKey = pyLower email ∧ r.isUsed = false := by
  unfold get_latest_otp at h
  cases hf : store.otpcodes.filter (otpQueryFilter email) with
  | nil => rw [hf] at h; exact Option.noConfusion h
  | cons e rest =>
    rw [hf] at h
    have hr : pickLatest e rest = r := Option.some.inj h
    have hm : r ∈ store.otpcodes.filter (otpQueryFilter email) := by
      rw [hf, ← hr]
      exact pickLatest_mem e rest
    have := List.mem_filter.mp hm
    exact ⟨this.1, (otpQueryFilter_iff email r).mp this.2⟩

lemma get_latest_otp_maximal {store : Store} {email : String} {r : OTPRecord}
    (h : get_latest_otp store email = some r) :
    ∀ x ∈ store.otpcodes, x.partitionKey = pyLower email → x.isUsed = false →
      x.createdAt ≤ r.createdAt := by
  intro x hx hpk hu
  unfold get_latest_otp at h
  cases hf : store.otpcodes.filter (otpQueryFilter email) with
  | nil => rw [hf] at h; exact Option.noConfusion h
  | cons e rest =>
    rw [hf] at h
    have hr : pickLatest e rest = r := Option.some.inj h
    have hxf : x ∈ e :: rest := by
      rw [← hf]
      exact List.mem_filter.mpr ⟨hx, (otpQueryFilter_iff email x).mpr ⟨hpk, hu⟩⟩
    rw [← hr]
    exact pickLatest_le e rest x hxf

end Eloquence

namespace Eloquence

/-! ## Effect characterizations of the store updates -/

lemma increment_otp_attempts_eq (store : Store) (email row_key : String) :
    increment_otp_attempts store email row_key
      = { store with otpcodes := store.otpcodes.map (bumpAttempts email row_key) } := rfl

lemma mark_otp_used_eq (store : Store) (email row_key : String) (now : Nat) :
    mark_otp_used store email row_key now
      = { store with otpcodes := store.otpcodes.map (markUsed email row_key now) } := rfl

lemma bumpAttempts_filter (email row_key : String) (x : OTPRecord) :
    otpQueryFilter email (bumpAttempts email row_key x) = otpQueryFilter email x := by
  unfold bumpAttempts
  by_cases h : (x.partitionKey == pyLower email && x.rowKey == row_key) = true
  · rw [if_pos h]; rfl
  · rw [if_neg h]

lemma bumpAttempts_createdAt (email row_key : String) (x : OTPRecord) :
    (bumpAttempts email row_key x).createdAt = x.createdAt := by
  unfold bumpAttempts
  by_cases h : (x.partitionKey == pyLower email && x.rowKey == row_key) = true
  · rw [if_pos h]
  · rw [if_neg h]

lemma get_latest_otp_map (store : Store) (ss : List SessionRecord) (email : String)
    (f : OTPRecord → OTPRecord)
    (hq : ∀ x, otpQueryFilter email (f x) = otpQueryFilter email x)
    (hc : ∀ x, (f x).createdAt = x.createdAt) :
    get_latest_otp { otpcodes := store.otpcodes.map f, usersessions := ss } email
      = (get_latest_otp store email).map f := by
  simp only [get_latest_otp]
  rw [filter_map_comm f (otpQueryFilter email) hq]
  cases store.otpcodes.filter (otpQueryFilter email) with
  | nil => rfl
  | cons e rest =>
    simp only [List.map_cons]
    rw [pickLatest_map f hc]
    rfl

lemma attemptsView_mark (store : Store) (email row_key : String) (now : Nat) :
    attemptsView (mark_otp_used store email row_key now) = attemptsView store := by
  rw [mark_otp_used_eq]
  unfold attemptsView
  simp only [List.map_map]
  apply List.map_congr_left
  intro x _
  unfold markUsed
  by_cases h : (x.partitionKey == pyLower email && x.rowKey == row_key) = true
  · rw [Function.comp_apply, if_pos h]
  · rw [Function.comp_apply, if_neg h]

/-! ## State of the store after a non-rate-limited send_otp -/

lemma send_otp_not_limited_snd (cfg : Config) (store : Store) (now : Nat)
    (email code row_key : String) (email_sent : Bool)
    (h : (send_otp cfg store now email code row_key email_sent).1 ≠ SendOutcome.rateLimited) :
    (send_otp cfg store now email code row_key email_sent).2
      = save_otp (delete_old_otps store email) email code (calculate_expiry cfg now) now row_key := by
  unfold send_otp at h ⊢
  cases hl : get_latest_otp store email with
  | none =>
    simp only [hl]
    cases email_sent <;> rfl
  | some latest =>
    simp only [hl] at h ⊢
    by_cases hr : is_rate_limited cfg now (some latest.createdAt) = true
    · rw [if_pos hr] at h
      exact absurd rfl h
    · rw [if_neg hr]
      cases email_sent <;> rfl

lemma send_otp_not_limited_filter_pk (cfg : Config) (store : Store) (now : Nat)
    (email code row_key : String) (email_sent : Bool)
    (h : (send_otp cfg store now email code row_key email_sent).1 ≠ SendOutcome.rateLimited) :
    (send_otp cfg store now email code row_key email_sent).2.otpcodes.filter
        (fun r => r.partitionKey == pyLower email)
      = [fresh_otp_record cfg now email code row_key] := by
  rw [send_otp_not_limited_snd cfg store now email code row_key email_sent h]
  unfold save_otp delete_old_otps fresh_otp_record
  simp only [List.filter_cons]
  rw [if_pos (by simp)]
  rw [List.filter_filter]
  have hnil : store.otpcodes.filter
      (fun a => a.partitionKey == pyLower email && !(a.partitionKey == pyLower email)) = [] := by
    rw [List.filter_eq_nil_iff]
    intro a _
    simp
  rw [hnil]

lemma send_otp_not_limited_filter_query (cfg : Config) (store : Store) (now : Nat)
    (email code row_key : String) (email_sent : Bool)
    (h : (send_otp cfg store now email code row_key email_sent).1 ≠ SendOutcome.rateLimited) :
    (send_otp cfg store now email code row_key email_sent).2.otpcodes.filter
        (otpQueryFilter email)
      = [fresh_otp_record cfg now email code row_key] := by
  have hq : ∀ r : OTPRecord, otpQueryFilter email r
      = ((fun x : OTPRecord => x.isUsed == false) r && (fun x : OTPRecord => x.partitionKey == pyLower email) r) := by
    intro r
    simp [otpQueryFilter, Bool.and_comm]
  calc (send_otp cfg store now email code row_key email_sent).2.otpcodes.filter (otpQueryFilter email)
      = ((send_otp cfg store now email code row_key email_sent).2.otpcodes.filter
          (fun r => r.partitionKey == pyLower email)).filter (fun r => r.isUsed == false) := by
        rw [List.filter_filter]
        exact List.filter_congr (fun x _ => hq x)
    _ = [fresh_otp_record cfg now email code row_key] := by
        rw [send_otp_not_limited_filter_pk cfg store now email code row_key email_sent h]
        rw [List.filter_cons]
        rw [if_pos (by rfl)]
        rfl

lemma get_latest_otp_after_send (cfg : Config) (store : Store) (now : Nat)
    (email code row_key : String) (email_sent : Bool)
    (h : (send_otp cfg store now email code row_key email_sent).1 ≠ SendOutcome.rateLimited) :
    get_latest_otp (send_otp cfg store now email code row_key email_sent).2 email
      = some (fresh_otp_record cfg now email code row_key) := by
  unfold get_latest_otp
  rw [send_otp_not_limited_filter_query cfg store now email code row_key email_sent h]
  rfl

end Eloquence

namespace Eloquence

/-! ## Branch lemmas for the verify-otp handler -/

lemma verify_otp_none (cfg : Config) (store : Store) (now : Nat)
    (email code tk uid : String) (h : get_latest_otp store email = none) :
    verify_otp cfg store now email code tk uid = (VerifyOutcome.notFound, store) := by
  unfold verify_otp
  rw [h]

lemma verify_otp_expired (cfg : Config) (store : Store) (now : Nat)
    (email code tk uid : String) {r : OTPRecord}
    (h : get_latest_otp store email = some r) (he : r.expiresAt < now) :
    verify_otp cfg store now email code tk uid = (VerifyOutcome.expired, store) := by
  unfold verify_otp
  simp only [h]
  rw [if_pos ((is_expired_iff now r.expiresAt).mpr he)]

lemma verify_otp_exhausted (cfg : Config) (store : Store) (now : Nat)
    (email code tk uid : String) {r : OTPRecord}
    (h : get_latest_otp store email = some r) (he : ¬ r.expiresAt < now)
    (ha : cfg.otp_max_attempts ≤ r.attempts) :
    verify_otp cfg store now email code tk uid = (VerifyOutcome.attemptsExhausted, store) := by
  unfold verify_otp
  simp only [h]
  rw [if_neg (fun hh => he ((is_expired_iff now r.expiresAt).mp hh)), if_pos ha]

lemma verify_otp_invalid (cfg : Config) (store : Store) (now : Nat)
    (email code tk uid : String) {r : OTPRecord}
    (h : get_latest_otp store email = some r) (he : ¬ r.expiresAt < now)
    (ha : r.attempts < cfg.otp_max_attempts) (hc : r.code ≠ code) :
    verify_otp cfg store now email code tk uid
      = (VerifyOutcome.invalidCode, increment_otp_attempts store email r.rowKey) := by
  unfold verify_otp
  simp only [h]
  rw [if_neg (fun hh => he ((is_expired_iff now r.expiresAt).mp hh)),
    if_neg (Nat.not_le.mpr ha)]
  have hb : (r.code == code) = false := beq_eq_false_iff_ne.mpr hc
  rw [if_pos (by rw [hb]; rfl)]

lemma verify_otp_success (cfg : Config) (store : Store) (now : Nat)
    (email code tk uid : String) {r : OTPRecord}
    (h : get_latest_otp store email = some r) (he : ¬ r.expiresAt < now)
    (ha : r.attempts < cfg.otp_max_attempts) (hc : r.code = code) :
    verify_otp cfg store now email code tk uid
      = (VerifyOutcome.success r.partitionKey,
         (create_session (mark_otp_used store email r.rowKey now) email tk
            (calculate_session_expiry cfg now) now uid).2) := by
  unfold verify_otp
  simp only [h]
  rw [if_neg (fun hh => he ((is_expired_iff now r.expiresAt).mp hh)),
    if_neg (Nat.not_le.mpr ha)]
  have hb : (r.code == code) = true := beq_iff_eq.mpr hc
  rw [if_neg (by rw [hb]; simp)]

end Eloquence

namespace Eloquence

/-! ## Iterated verify calls -/

lemma get_latest_otp_increment {store : Store} {email : String} {r : OTPRecord}
    (h : get_latest_otp store email = some r) :
    get_latest_otp (increment_otp_attempts store email r.rowKey) email
      = some { r with attempts := r.attempts + 1 } := by
  obtain ⟨_, hpk, _⟩ := get_latest_otp_eq_some_mem h
  rw [increment_otp_attempts_eq]
  rw [get_latest_otp_map store store.usersessions email (bumpAttempts email r.rowKey)
    (bumpAttempts_filter email r.rowKey) (bumpAttempts_createdAt email r.rowKey)]
  rw [h]
  show some (bumpAttempts email r.rowKey r) = some { r with attempts := r.attempts + 1 }
  unfold bumpAttempts
  rw [if_pos (by rw [hpk]; simp)]

lemma attemptsView_create_session (store : Store) (email token : String)
    (expires_at now : Nat) (uid : String) :
    attemptsView (create_session store email token expires_at now uid).2 = attemptsView store := rfl

lemma iterate_verify_wrong_latest (cfg : Config) (now : Nat) (email code tk uid : String)
    (k : Nat) :
    ∀ (store : Store) (r : OTPRecord),
      get_latest_otp store email = some r → ¬ r.expiresAt < now → r.code ≠ code →
      r.attempts + k ≤ cfg.otp_max_attempts →
      get_latest_otp (iterate_verify cfg now email code tk uid k store) email
        = some { r with attempts := r.attempts + k } := by
  induction k with
  | zero =>
    intro store r h _ _ _
    exact h
  | succ n ih =>
    intro store r h he hc hk
    have hlt : r.attempts < cfg.otp_max_attempts := by omega
    have hstep : verify_step cfg now email code tk uid store
        = increment_otp_attempts store email r.rowKey := by
      unfold verify_step
      rw [verify_otp_invalid cfg store now email code tk uid h he hlt hc]
    have hlat : get_latest_otp (increment_otp_attempts store email r.rowKey) email
        = some { r with attempts := r.attempts + 1 } := get_latest_otp_increment h
    have hrec := ih (increment_otp_attempts store email r.rowKey)
      { r with attempts := r.attempts + 1 } hlat he hc
      (by show r.attempts + 1 + n ≤ cfg.otp_max_attempts; omega)
    show get_latest_otp
        (iterate_verify cfg now email code tk uid n (verify_step cfg now email code tk uid store))
        email = some { r with attempts := r.attempts + (n + 1) }
    rw [hstep, hrec]
    have harr : ({ r with attempts := r.attempts + 1 } : OTPRecord).attempts + n
        = r.attempts + (n + 1) := by
      show r.attempts + 1 + n = r.attempts + (n + 1)
      omega
    rw [harr]

lemma validate_session_and_whitelist_snd (cfg : Config) (store : Store) (now : Nat)
    (token : String) :
    (validate_session_and_whitelist cfg store now token).2 = store := by
  unfold validate_session_and_whitelist
  cases validate_session store now token with
  | notFound => rfl
  | expired => rfl
  | valid s =>
    by_cases h : is_email_allowed_for_llm cfg s.partitionKey = true
    · simp only [h]
      rfl
    · simp only [Bool.not_eq_true] at h
      simp only [h]
      rfl

end Eloquence

namespace Eloquence

/-! ## Claim theorems -/

/-- C1: verify-otp fetches the latest unused OTP record of the identity (an
unused record of the lower-cased email whose createdAt is maximal) and
evaluates in this fixed order: no unused record gives NotFound; now
strictly past expires_at gives Expired; attempts at or above
otp_max_attempts gives AttemptsExhausted; a wrong candidate increments the
attempts counter by one (persisted) and gives InvalidCode; otherwise the
record is marked used (persisted) and the call succeeds with the identity
of the record. -/
theorem C1_verify_evaluation_order (cfg : Config) (store : Store) (now : Nat)
    (email code tk uid : String) :
    ((∀ x ∈ store.otpcodes, x.partitionKey = pyLower email → x.isUsed = true) →
      verify_otp cfg store now email code tk uid = (VerifyOutcome.notFound, store)) ∧
    (∀ r, get_latest_otp store email = some r →
      (r ∈ store.otpcodes ∧ r.partitionKey = pyLower email ∧ r.isUsed = false ∧
        ∀ x ∈ store.otpcodes, x.partitionKey = pyLower email → x.isUsed = false →
          x.createdAt ≤ r.createdAt) ∧
      (r.expiresAt < now →
        verify_otp cfg store now email code tk uid = (VerifyOutcome.expired, store)) ∧
      (¬ r.expiresAt < now → cfg.otp_max_attempts ≤ r.attempts →
        verify_otp cfg store now email code tk uid = (VerifyOutcome.attemptsExhausted, store)) ∧
      (¬ r.expiresAt < now → r.attempts < cfg.otp_max_attempts → code ≠ r.code →
        verify_otp cfg store now email code tk uid
          = (VerifyOutcome.invalidCode, increment_otp_attempts store email r.rowKey)) ∧
      (¬ r.expiresAt < now → r.attempts < cfg.otp_max_attempts → code = r.code →
        verify_otp cfg store now email code tk uid
          = (VerifyOutcome.success r.partitionKey,
             (create_session (mark_otp_used store email r.rowKey now) email tk
               (calculate_session_expiry cfg now) now uid).2))) := by
  constructor
  · intro hall
    apply verify_otp_none
    rw [get_latest_otp_eq_none_iff, otp_filter_eq_nil_iff]
    exact hall
  · intro r hr
    refine ⟨⟨(get_latest_otp_eq_some_mem hr).1, (get_latest_otp_eq_some_mem hr).2.1,
      (get_latest_otp_eq_some_mem hr).2.2, get_latest_otp_maximal hr⟩, ?_, ?_, ?_, ?_⟩
    · intro he
      exact verify_otp_expired cfg store now email code tk uid hr he
    · intro he ha
      exact verify_otp_exhausted cfg store now email code tk uid hr he ha
    · intro he ha hc
      exact verify_otp_invalid cfg store now email code tk uid hr he ha (fun h => hc h.symm)
    · intro he ha hc
      exact verify_otp_success cfg store now email code tk uid hr he ha hc.symm

/-- Witness for C1: the wrong-code branch at the default configuration and
a one-record store. -/
theorem C1_witness :
    verify_otp cfgD storeEx 100 "a@x" "000000" "t" "u"
      = (VerifyOutcome.invalidCode, increment_otp_attempts storeEx "a@x" "rk1") := by
  have h := (C1_verify_evaluation_order cfgD storeEx 100 "a@x" "000000" "t" "u").2 recEx
    (by decide)
  exact h.2.2.2.1 (by decide) (by decide) (by decide)

/-- C2 counterexample: at the instant now equal to expires_at the code still
returns the session (llm.py checks expires_at strictly below utcnow), which
refutes the claim that validation fails with Expired whenever
now is at or after expires_at. -/
theorem C2_counterexample :
    sessEx.expiresAt = 50 ∧ get_session storeSess "tok" = some sessEx ∧
    validate_session storeSess 50 "tok" = SessionCheck.valid sessEx := by
  exact ⟨rfl, by decide, by decide⟩

/-- C2 (amended): session validation fails with NotFound when no record has
the token, fails with Expired exactly when now is strictly past expires_at,
and otherwise returns the record; hence a token validates at every instant
up to and including expires_at and fails with Expired strictly afterwards. -/
theorem C2_session_validation (store : Store) (now : Nat) (token : String) :
    ((∀ s ∈ store.usersessions, s.rowKey ≠ token) →
      validate_session store now token = SessionCheck.notFound) ∧
    (∀ s, get_session store token = some s →
      (now ≤ s.expiresAt → validate_session store now token = SessionCheck.valid s) ∧
      (s.expiresAt < now → validate_session store now token = SessionCheck.expired)) := by
  constructor
  · intro hall
    unfold validate_session
    have hn : get_session store token = none := by
      unfold get_session
      rw [List.find?_eq_none]
      intro s hs
      simp only [beq_iff_eq]
      exact hall s hs
    rw [hn]
  · intro s hs
    constructor
    · intro hle
      unfold validate_session
      simp only [hs]
      rw [if_neg (Nat.not_lt.mpr hle)]
    · intro hlt
      unfold validate_session
      simp only [hs]
      rw [if_pos hlt]

/-- Witness for C2 (amended): validating just before, just after, and with
an unknown token. -/
theorem C2_witness :
    validate_session storeSess 49 "tok" = SessionCheck.valid sessEx ∧
    validate_session storeSess 51 "tok" = SessionCheck.expired ∧
    validate_session storeSess 49 "zzz" = SessionCheck.notFound := by
  refine ⟨((C2_session_validation storeSess 49 "tok").2 sessEx (by decide)).1 (by decide),
    ((C2_session_validation storeSess 51 "tok").2 sessEx (by decide)).2 (by decide),
    (C2_session_validation storeSess 49 "zzz").1 (by decide)⟩

end Eloquence

namespace Eloquence

/-- C3: a send-otp call that returns success purges every OTP record of the
identity (used or not) and creates exactly one new record with attempts
zero and used false, so afterwards the store holds exactly one unused OTP
record for that identity. -/
theorem C3_issue_one_live_record (cfg : Config) (store : Store) (now : Nat)
    (email code row_key : String) (email_sent : Bool)
    (h : (send_otp cfg store now email code row_key email_sent).1
        = SendOutcome.success (cfg.otp_expiry_minutes * 60)) :
    (send_otp cfg store now email code row_key email_sent).2.otpcodes.filter
        (fun r => r.partitionKey == pyLower email)
      = [fresh_otp_record cfg now email code row_key] ∧
    (fresh_otp_record cfg now email code row_key).attempts = 0 ∧
    (fresh_otp_record cfg now email code row_key).isUsed = false ∧
    ((send_otp cfg store now email code row_key email_sent).2.otpcodes.filter
        (otpQueryFilter email)).length = 1 := by
  have hnr : (send_otp cfg store now email code row_key email_sent).1
      ≠ SendOutcome.rateLimited := by
    rw [h]
    simp
  refine ⟨send_otp_not_limited_filter_pk cfg store now email code row_key email_sent hnr,
    rfl, rfl, ?_⟩
  rw [send_otp_not_limited_filter_query cfg store now email code row_key email_sent hnr]
  rfl

/-- Witness for C3: issuing into an empty store. -/
theorem C3_witness :
    (send_otp cfgD storeEmpty 0 "a@x" "482913" "rk1" true).2.otpcodes.filter
        (fun r => r.partitionKey == pyLower "a@x")
      = [fresh_otp_record cfgD 0 "a@x" "482913" "rk1"] ∧
    ((send_otp cfgD storeEmpty 0 "a@x" "482913" "rk1" true).2.otpcodes.filter
        (otpQueryFilter "a@x")).length = 1 := by
  have h := C3_issue_one_live_record cfgD storeEmpty 0 "a@x" "482913" "rk1" true (by decide)
  exact ⟨h.1, h.2.2.2⟩

lemma send_otp_rateLimited_iff (cfg : Config) (store : Store) (now : Nat)
    (email code row_key : String) (email_sent : Bool) :
    (send_otp cfg store now email code row_key email_sent).1 = SendOutcome.rateLimited ↔
      ∃ r ∈ store.otpcodes, r.partitionKey = pyLower email ∧ r.isUsed = false ∧
        (now : Int) - (r.createdAt : Int) < (cfg.otp_rate_limit_minutes : Int) * 60 := by
  constructor
  · intro h
    unfold send_otp at h
    cases hl : get_latest_otp store email with
    | none =>
      simp only [hl] at h
      cases email_sent <;> simp at h
    | some latest =>
      simp only [hl] at h
      by_cases hr : is_rate_limited cfg now (some latest.createdAt) = true
      · obtain ⟨hm, hpk, hu⟩ := get_latest_otp_eq_some_mem hl
        exact ⟨latest, hm, hpk, hu, (is_rate_limited_some_iff cfg now latest.createdAt).mp hr⟩
      · rw [if_neg hr] at h
        cases email_sent <;> simp at h
  · rintro ⟨r0, hm, hpk, hu, ht⟩
    cases hl : get_latest_otp store email with
    | none =>
      rw [get_latest_otp_eq_none_iff, otp_filter_eq_nil_iff] at hl
      have := hl r0 hm hpk
      rw [hu] at this
      exact Bool.noConfusion this
    | some latest =>
      have hmax := get_latest_otp_maximal hl r0 hm hpk hu
      have hlim : is_rate_limited cfg now (some latest.createdAt) = true := by
        rw [is_rate_limited_some_iff]
        have hcast : (r0.createdAt : Int) ≤ (latest.createdAt : Int) := by
          exact_mod_cast hmax
        omega
      unfold send_otp
      simp only [hl]
      rw [if_pos hlim]

/-- C4: send-otp fails with RateLimited exactly when some prior unused OTP
record of the identity was created less than otp_rate_limit_minutes ago;
after a non-rate-limited issue, a second issue strictly inside the window
is rejected as RateLimited and an issue once the window has elapsed is
not. -/
theorem C4_rate_limit_window (cfg : Config) (store : Store) (now : Nat)
    (email code row_key : String) (email_sent : Bool) :
    ((send_otp cfg store now email code row_key email_sent).1 = SendOutcome.rateLimited ↔
      ∃ r ∈ store.otpcodes, r.partitionKey = pyLower email ∧ r.isUsed = false ∧
        (now : Int) - (r.createdAt : Int) < (cfg.otp_rate_limit_minutes : Int) * 60) ∧
    ((send_otp cfg store now email code row_key email_sent).1 ≠ SendOutcome.rateLimited →
      ∀ (t : Nat) (code2 row_key2 : String) (sent2 : Bool),
        ((t : Int) - (now : Int) < (cfg.otp_rate_limit_minutes : Int) * 60 →
          (send_otp cfg (send_otp cfg store now email code row_key email_sent).2
              t email code2 row_key2 sent2).1 = SendOutcome.rateLimited) ∧
        ((cfg.otp_rate_limit_minutes : Int) * 60 ≤ (t : Int) - (now : Int) →
          (send_otp cfg (send_otp cfg store now email code row_key email_sent).2
              t email code2 row_key2 sent2).1 ≠ SendOutcome.rateLimited)) := by
  refine ⟨send_otp_rateLimited_iff cfg store now email code row_key email_sent, ?_⟩
  intro hnr t code2 row_key2 sent2
  constructor
  · intro ht
    rw [send_otp_rateLimited_iff]
    refine ⟨fresh_otp_record cfg now email code row_key, ?_, rfl, rfl, ht⟩
    rw [send_otp_not_limited_snd cfg store now email code row_key email_sent hnr]
    exact List.mem_cons_self _ _
  · intro ht hcontra
    rw [send_otp_rateLimited_iff] at hcontra
    obtain ⟨r0, hm, hpk, hu, htime⟩ := hcontra
    have hrf : r0 ∈ (send_otp cfg store now email code row_key email_sent).2.otpcodes.filter
        (otpQueryFilter email) :=
      List.mem_filter.mpr ⟨hm, (otpQueryFilter_iff email r0).mpr ⟨hpk, hu⟩⟩
    rw [send_otp_not_limited_filter_query cfg store now email code row_key email_sent hnr] at hrf
    have hr0 : r0 = fresh_otp_record cfg now email code row_key := List.mem_singleton.mp hrf
    have hcr : r0.createdAt = now := by rw [hr0]; rfl
    rw [hcr] at htime
    omega

/-- Witness for C4: a second issue 30 seconds after the first is rejected,
one 60 seconds after is accepted. -/
theorem C4_witness :
    (send_otp cfgD (send_otp cfgD storeEmpty 0 "a@x" "111111" "r1" true).2
        30 "a@x" "222222" "r2" true).1 = SendOutcome.rateLimited ∧
    (send_otp cfgD (send_otp cfgD storeEmpty 0 "a@x" "111111" "r1" true).2
        60 "a@x" "222222" "r2" true).1 ≠ SendOutcome.rateLimited := by
  have h := (C4_rate_limit_window cfgD storeEmpty 0 "a@x" "111111" "r1" true).2 (by decide)
  exact ⟨(h 30 "222222" "r2" true).1 (by decide), (h 60 "222222" "r2" true).2 (by decide)⟩

end Eloquence

namespace Eloquence

/-- C5: the attempts counter is changed only by verify calls whose outcome
is InvalidCode (all other outcomes leave every counter unchanged); a
wrong-code call increments the live record counter by exactly one; and
after otp_max_attempts consecutive wrong attempts on a fresh record, every
later verify before expiry, even with the correct code, fails with
AttemptsExhausted and leaves the store unchanged. -/
theorem C5_attempt_counting (cfg : Config) (store : Store) (now : Nat)
    (email tk uid : String) :
    (∀ code, (verify_otp cfg store now email code tk uid).1 ≠ VerifyOutcome.invalidCode →
      attemptsView (verify_otp cfg store now email code tk uid).2 = attemptsView store) ∧
    (∀ code r, get_latest_otp store email = some r →
      (verify_otp cfg store now email code tk uid).1 = VerifyOutcome.invalidCode →
      get_latest_otp (verify_otp cfg store now email code tk uid).2 email
        = some { r with attempts := r.attempts + 1 }) ∧
    (∀ code r, get_latest_otp store email = some r → r.attempts = 0 →
      ¬ r.expiresAt < now → r.code ≠ code →
      ∀ (now2 : Nat) (code2 tk2 uid2 : String), ¬ r.expiresAt < now2 →
        verify_otp cfg
            (iterate_verify cfg now email code tk uid cfg.otp_max_attempts store)
            now2 email code2 tk2 uid2
          = (VerifyOutcome.attemptsExhausted,
             iterate_verify cfg now email code tk uid cfg.otp_max_attempts store)) := by
  refine ⟨?_, ?_, ?_⟩
  · intro code hne
    cases hl : get_latest_otp store email with
    | none => rw [verify_otp_none cfg store now email code tk uid hl]
    | some r =>
      by_cases he : r.expiresAt < now
      · rw [verify_otp_expired cfg store now email code tk uid hl he]
      · by_cases ha : cfg.otp_max_attempts ≤ r.attempts
        · rw [verify_otp_exhausted cfg store now email code tk uid hl he ha]
        · by_cases hc : r.code = code
          · rw [verify_otp_success cfg store now email code tk uid hl he (Nat.not_le.mp ha) hc]
            rw [show ((VerifyOutcome.success r.partitionKey,
                (create_session (mark_otp_used store email r.rowKey now) email tk
                  (calculate_session_expiry cfg now) now uid).2)).2
              = (create_session (mark_otp_used store email r.rowKey now) email tk
                  (calculate_session_expiry cfg now) now uid).2 from rfl]
            rw [attemptsView_create_session, attemptsView_mark]
          · rw [verify_otp_invalid cfg store now email code tk uid hl he
              (Nat.not_le.mp ha) hc] at hne
            simp at hne
  · intro code r hl hinv
    by_cases he : r.expiresAt < now
    · rw [verify_otp_expired cfg store now email code tk uid hl he] at hinv
      simp at hinv
    · by_cases ha : cfg.otp_max_attempts ≤ r.attempts
      · rw [verify_otp_exhausted cfg store now email code tk uid hl he ha] at hinv
        simp at hinv
      · by_cases hc : r.code = code
        · rw [verify_otp_success cfg store now email code tk uid hl he
            (Nat.not_le.mp ha) hc] at hinv
          simp at hinv
        · rw [verify_otp_invalid cfg store now email code tk uid hl he (Nat.not_le.mp ha) hc]
          exact get_latest_otp_increment hl
  · intro code r hl h0 he hc now2 code2 tk2 uid2 he2
    have hit := iterate_verify_wrong_latest cfg now email code tk uid cfg.otp_max_attempts
      store r hl he hc (by omega)
    exact verify_otp_exhausted cfg _ now2 email code2 tk2 uid2 hit he2
      (by show cfg.otp_max_attempts ≤ r.attempts + cfg.otp_max_attempts; omega)

/-- Witness for C5: three wrong attempts at the default configuration, then
the correct code is rejected with AttemptsExhausted. -/
theorem C5_witness :
    verify_otp cfgD
        (iterate_verify cfgD 100 "a@x" "000000" "t" "u" cfgD.otp_max_attempts storeEx)
        100 "a@x" "482913" "t2" "u2"
      = (VerifyOutcome.attemptsExhausted,
         iterate_verify cfgD 100 "a@x" "000000" "t" "u" cfgD.otp_max_attempts storeEx) := by
  exact (C5_attempt_counting cfgD storeEx 100 "a@x" "t" "u").2.2 "000000" recEx
    (by decide) (by decide) (by decide) (by decide) 100 "482913" "t2" "u2" (by decide)

/-- C6: when the identity has exactly one unused OTP record, a verify with
its code before expiry and below the attempts ceiling succeeds and marks
the record used, and afterwards (with no new issue in between) every verify
for the identity, with any code, fails with NotFound, because the query
fetches only unused records. -/
theorem C6_success_exactly_once (cfg : Config) (store : Store) (now : Nat)
    (email tk uid : String) (r : OTPRecord)
    (hone : store.otpcodes.filter (otpQueryFilter email) = [r])
    (he : ¬ r.expiresAt < now) (ha : r.attempts < cfg.otp_max_attempts) :
    (verify_otp cfg store now email r.code tk uid).1 = VerifyOutcome.success r.partitionKey ∧
    ∀ (now2 : Nat) (code2 tk2 uid2 : String),
      (verify_otp cfg (verify_otp cfg store now email r.code tk uid).2
          now2 email code2 tk2 uid2).1 = VerifyOutcome.notFound := by
  have hl : get_latest_otp store email = some r := by
    unfold get_latest_otp
    rw [hone]
    rfl
  have hq : otpQueryFilter email r = true :=
    (List.mem_filter.mp (show r ∈ store.otpcodes.filter (otpQueryFilter email) by
      rw [hone]; exact List.mem_singleton.mpr rfl)).2
  obtain ⟨hpk, hu⟩ := (otpQueryFilter_iff email r).mp hq
  have hsucc := verify_otp_success cfg store now email r.code tk uid hl he ha rfl
  constructor
  · rw [hsucc]
  · intro now2 code2 tk2 uid2
    have hnone : get_latest_otp (verify_otp cfg store now email r.code tk uid).2 email
        = none := by
      rw [hsucc]
      rw [get_latest_otp_eq_none_iff]
      rw [show ((create_session (mark_otp_used store email r.rowKey now) email tk
            (calculate_session_expiry cfg now) now uid).2).otpcodes
          = (mark_otp_used store email r.rowKey now).otpcodes from rfl]
      rw [mark_otp_used_eq]
      rw [List.filter_eq_nil_iff]
      intro a ha2 haq
      obtain ⟨x, hx, hax⟩ := List.mem_map.mp ha2
      by_cases hk : (x.partitionKey == pyLower email && x.rowKey == r.rowKey) = true
      · have hused : a.isUsed = true := by
          rw [← hax]
          unfold markUsed
          rw [if_pos hk]
        have hfalse := ((otpQueryFilter_iff email a).mp haq).2
        rw [hused] at hfalse
        exact Bool.noConfusion hfalse
      · have hax2 : a = x := by
          rw [← hax]
          unfold markUsed
          rw [if_neg hk]
        have hxf : x ∈ store.otpcodes.filter (otpQueryFilter email) :=
          List.mem_filter.mpr ⟨hx, by rw [← hax2]; exact haq⟩
        rw [hone] at hxf
        have hxr : x = r := List.mem_singleton.mp hxf
        apply hk
        rw [hxr, hpk]
        simp
    rw [verify_otp_none cfg _ now2 email code2 tk2 uid2 hnone]

/-- Witness for C6: the sample record verifies once and the replay is
rejected with NotFound. -/
theorem C6_witness :
    (verify_otp cfgD storeEx 100 "a@x" "482913" "t" "u").1
      = VerifyOutcome.success "a@x" ∧
    (verify_otp cfgD (verify_otp cfgD storeEx 100 "a@x" "482913" "t" "u").2
        200 "a@x" "482913" "t2" "u2").1 = VerifyOutcome.notFound := by
  have h := C6_success_exactly_once cfgD storeEx 100 "a@x" "t" "u" recEx
    (by decide) (by decide) (by decide)
  exact ⟨h.1, h.2 200 "482913" "t2" "u2"⟩

end Eloquence

namespace Eloquence

/-- C7: with an empty parsed allow-list every identity is allowed
(fail-open); with a non-empty one exactly the identities that match a
configured entry case-insensitively are allowed; and on a found, unexpired
session the whitelist decision returns the session or Forbidden
accordingly. -/
theorem C7_allow_list (cfg : Config) :
    (∀ email, llm_allowed_emails_list cfg = [] →
      is_email_allowed_for_llm cfg email = true) ∧
    (∀ email, llm_allowed_emails_list cfg ≠ [] →
      (is_email_allowed_for_llm cfg email = true ↔
        ∃ e ∈ pySplit (Char.ofNat 44) cfg.llm_allowed_emails,
          ¬ pyStrip e = "" ∧ pyLower email = pyLower (pyStrip e))) ∧
    (∀ (store : Store) (now : Nat) (token : String) (s : SessionRecord),
      get_session store token = some s → ¬ s.expiresAt < now →
      (is_email_allowed_for_llm cfg s.partitionKey = true →
        validate_session_and_whitelist cfg store now token = (AuthOutcome.ok s, store)) ∧
      (is_email_allowed_for_llm cfg s.partitionKey = false →
        validate_session_and_whitelist cfg store now token
          = (AuthOutcome.forbidden, store))) := by
  refine ⟨?_, ?_, ?_⟩
  · intro email h
    unfold is_email_allowed_for_llm
    simp only [h]
    rfl
  · intro email hne
    unfold is_email_allowed_for_llm
    have hemp : (llm_allowed_emails_list cfg).isEmpty = false := by
      cases hc : llm_allowed_emails_list cfg with
      | nil => exact absurd hc hne
      | cons a t => rfl
    simp only []
    rw [if_neg (by rw [hemp]; simp)]
    rw [show ((llm_allowed_emails_list cfg).contains (pyLower email) = true)
        = (pyLower email ∈ llm_allowed_emails_list cfg) from propext List.elem_iff]
    unfold llm_allowed_emails_list
    by_cases hs : (cfg.llm_allowed_emails == "") = true
    · exfalso
      apply hne
      unfold llm_allowed_emails_list
      rw [if_pos hs]
    · rw [if_neg hs]
      rw [List.mem_map]
      constructor
      · rintro ⟨e, he, heq⟩
        have hf := List.mem_filter.mp he
        refine ⟨e, hf.1, ?_, heq.symm⟩
        have := hf.2
        simp only [Bool.not_eq_true', beq_eq_false_iff_ne] at this
        exact this
      · rintro ⟨e, he, hne2, heq⟩
        refine ⟨e, List.mem_filter.mpr ⟨he, ?_⟩, heq.symm⟩
        simp only [Bool.not_eq_true', beq_eq_false_iff_ne]
        exact hne2
  · intro store now token s hs hexp
    have hv : validate_session store now token = SessionCheck.valid s := by
      unfold validate_session
      simp only [hs]
      rw [if_neg hexp]
    unfold validate_session_and_whitelist
    simp only [hv]
    constructor
    · intro hallow
      rw [if_neg (by rw [hallow]; simp)]
    · intro hallow
      rw [if_pos (by rw [hallow]; rfl)]

/-- Witness for C7: the default empty allow-list admits any identity, a
configured entry matches case-insensitively, and a valid session passes the
gate. -/
theorem C7_witness :
    is_email_allowed_for_llm cfgD "whoever@z" = true ∧
    is_email_allowed_for_llm cfgWL "ALICE@x.COM" = true ∧
    validate_session_and_whitelist cfgD storeSess 40 "tok"
      = (AuthOutcome.ok sessEx, storeSess) := by
  refine ⟨(C7_allow_list cfgD).1 "whoever@z" (by decide),
    ((C7_allow_list cfgWL).2.1 "ALICE@x.COM" (by decide)).mpr
      ⟨"Alice@X.com", by decide, by decide, by decide⟩,
    ((C7_allow_list cfgD).2.2 storeSess 40 "tok" sessEx (by decide) (by decide)).1 (by decide)⟩

/-- C8: session validation performs no store writes: folding any sequence
of validate calls through the store returns it unchanged, so every session
record, with its expiresAt and lastAccessedAt fields, stays exactly as it
was at creation. -/
theorem C8_validation_no_writes (cfg : Config) (store : Store)
    (calls : List (Nat × String)) :
    run_validations cfg store calls = store ∧
    (run_validations cfg store calls).usersessions = store.usersessions := by
  have h : ∀ (l : List (Nat × String)) (st : Store), run_validations cfg st l = st := by
    intro l
    induction l with
    | nil => intro st; rfl
    | cons c t ih =>
      intro st
      show run_validations cfg (validate_session_and_whitelist cfg st c.1 c.2).2 t = st
      rw [validate_session_and_whitelist_snd]
      exact ih st
  exact ⟨h calls store, by rw [h calls store]⟩

/-- C9: when delivery fails after a non-rate-limited send, the handler
reports the failure (HTTP 500) but the fresh record is already persisted:
the identity holds exactly that unused record, its code still verifies
successfully before expiry, and a retry strictly inside the rate window is
rejected as RateLimited. -/
theorem C9_send_not_atomic (cfg : Config) (store : Store) (now : Nat)
    (email code row_key tk uid : String)
    (hnr : (send_otp cfg store now email code row_key false).1 ≠ SendOutcome.rateLimited)
    (hmax : 0 < cfg.otp_max_attempts) :
    (send_otp cfg store now email code row_key false).1 = SendOutcome.emailFailed ∧
    (send_otp cfg store now email code row_key false).2.otpcodes.filter (otpQueryFilter email)
      = [fresh_otp_record cfg now email code row_key] ∧
    (∀ now2, ¬ calculate_expiry cfg now < now2 →
      (verify_otp cfg (send_otp cfg store now email code row_key false).2
          now2 email code tk uid).1 = VerifyOutcome.success (pyLower email)) ∧
    (∀ (t : Nat) (code2 row_key2 : String) (sent2 : Bool),
      (t : Int) - (now : Int) < (cfg.otp_rate_limit_minutes : Int) * 60 →
      (send_otp cfg (send_otp cfg store now email code row_key false).2
          t email code2 row_key2 sent2).1 = SendOutcome.rateLimited) := by
  refine ⟨?_, send_otp_not_limited_filter_query cfg store now email code row_key false hnr,
    ?_, ?_⟩
  · unfold send_otp at hnr ⊢
    cases hl : get_latest_otp store email with
    | none =>
      simp only [hl]
      rfl
    | some latest =>
      simp only [hl] at hnr ⊢
      by_cases hr2 : is_rate_limited cfg now (some latest.createdAt) = true
      · rw [if_pos hr2] at hnr
        exact absurd rfl hnr
      · rw [if_neg hr2]
        rfl
  · intro now2 hn2
    have hl2 := get_latest_otp_after_send cfg store now email code row_key false hnr
    rw [verify_otp_success cfg _ now2 email code tk uid hl2 hn2 hmax rfl]
    rfl
  · intro t code2 row_key2 sent2 ht
    rw [send_otp_rateLimited_iff]
    refine ⟨fresh_otp_record cfg now email code row_key, ?_, rfl, rfl, ht⟩
    rw [send_otp_not_limited_snd cfg store now email code row_key false hnr]
    exact List.mem_cons_self _ _

/-- Witness for C9: a failed delivery into an empty store leaves a
verifiable code and an active rate-limit window. -/
theorem C9_witness :
    (send_otp cfgD storeEmpty 0 "a@x" "482913" "r1" false).1 = SendOutcome.emailFailed ∧
    (verify_otp cfgD (send_otp cfgD storeEmpty 0 "a@x" "482913" "r1" false).2
        300 "a@x" "482913" "t" "u").1 = VerifyOutcome.success (pyLower "a@x") ∧
    (send_otp cfgD (send_otp cfgD storeEmpty 0 "a@x" "482913" "r1" false).2
        30 "a@x" "111111" "r2" true).1 = SendOutcome.rateLimited := by
  have h := C9_send_not_atomic cfgD storeEmpty 0 "a@x" "482913" "r1" "t" "u"
    (by decide) (by decide)
  exact ⟨h.1, h.2.2.1 300 (by decide), h.2.2.2 30 "111111" "r2" true (by decide)⟩

/-- C10: the transport accepts a verify code only when it is exactly six
ASCII digits, regardless of otp_length; with otp_length different from six
an accepted candidate can never equal a generated code, so no verify call
against a store of generated codes can succeed. -/
theorem C10_code_length_mismatch (cfg : Config) (h6 : cfg.otp_length ≠ 6) :
    (∀ candidate, accepted_verify_code candidate = true →
      candidate.length = 6 ∧ ∀ c ∈ candidate.data, Char.ofNat 48 ≤ c ∧ c ≤ Char.ofNat 57) ∧
    (∀ candidate gen, accepted_verify_code candidate = true →
      is_generated_code cfg gen → candidate ≠ gen) ∧
    (∀ (store : Store) (now : Nat) (email tk uid candidate idt : String),
      (∀ r ∈ store.otpcodes, is_generated_code cfg r.code) →
      accepted_verify_code candidate = true →
      (verify_otp cfg store now email candidate tk uid).1 ≠ VerifyOutcome.success idt) := by
  have hacc : ∀ candidate : String, accepted_verify_code candidate = true →
      candidate.length = 6 ∧ ∀ c ∈ candidate.data, Char.ofNat 48 ≤ c ∧ c ≤ Char.ofNat 57 := by
    intro cand h
    unfold accepted_verify_code at h
    rw [Bool.and_eq_true] at h
    refine ⟨by simpa using h.1, ?_⟩
    intro c hc
    have hcc := List.all_eq_true.mp h.2 c hc
    rw [Bool.and_eq_true] at hcc
    exact ⟨of_decide_eq_true hcc.1, of_decide_eq_true hcc.2⟩
  have hneq : ∀ candidate gen : String, accepted_verify_code candidate = true →
      is_generated_code cfg gen → candidate ≠ gen := by
    intro cand gen ha hg heq
    apply h6
    rw [← hg.1, ← heq, (hacc cand ha).1]
  refine ⟨hacc, hneq, ?_⟩
  intro store now email tk uid cand idt hstore ha hsucc
  cases hl : get_latest_otp store email with
  | none =>
    rw [verify_otp_none cfg store now email cand tk uid hl] at hsucc
    simp at hsucc
  | some r =>
    by_cases he : r.expiresAt < now
    · rw [verify_otp_expired cfg store now email cand tk uid hl he] at hsucc
      simp at hsucc
    · by_cases hax : cfg.otp_max_attempts ≤ r.attempts
      · rw [verify_otp_exhausted cfg store now email cand tk uid hl he hax] at hsucc
        simp at hsucc
      · by_cases hc : r.code = cand
        · have hg := hstore r (get_latest_otp_eq_some_mem hl).1
          exact hneq cand r.code ha hg hc.symm
        · rw [verify_otp_invalid cfg store now email cand tk uid hl he
            (Nat.not_le.mp hax) hc] at hsucc
          simp at hsucc

/-- Witness for C10: with otp_length five, the accepted candidate differs
from the generated code and verify cannot succeed. -/
theorem C10_witness :
    ("123456" : String) ≠ "12345" ∧
    (verify_otp cfgLen5 storeLen5 10 "a@x" "123456" "t" "u").1
      ≠ VerifyOutcome.success "a@x" := by
  have h := C10_code_length_mismatch cfgLen5 (by decide)
  have hgen : is_generated_code cfgLen5 "12345" := by
    unfold is_generated_code
    exact ⟨by decide, by decide⟩
  have hall : ∀ r ∈ storeLen5.otpcodes, is_generated_code cfgLen5 r.code := by
    intro r hr
    have hr5 : r = recLen5 := List.mem_singleton.mp hr
    subst hr5
    unfold is_generated_code
    exact ⟨by decide, by decide⟩
  exact ⟨h.2.1 "123456" "12345" (by decide) hgen,
    h.2.2 storeLen5 10 "a@x" "t" "u" "123456" "a@x" hall (by decide)⟩

end Eloquence
